import Mathlib

/-!
Verification development for the cross-seed eligibility-and-injection core.

The definitions below are a shallow embedding of `src/clients/Deluge.ts` and
`src/preFilter.ts`.  JavaScript's dynamic values are modelled by `JsVal`,
property access by `JsVal.get` (which, as in JavaScript, faults on `undefined`
and `null` bases), thrown exceptions by `Except Fault`, and the remote Deluge
web UI by a script of replies consumed one per HTTP request.  The mutable
fields of the `Deluge` class (`msgId`, `loggedIn`, `delugeCookie`,
`enLabeled`) are threaded explicitly through a state record `St`, which also
records the trace of JSON-RPC calls put on the wire.
-/

/-- Model of a JavaScript runtime value, as far as Deluge.ts manipulates them:
`undefined`, `null`, booleans, numbers, strings, arrays and plain objects. -/
inductive JsVal : Type where
  | jundefined : JsVal
  | jnull : JsVal
  | jbool : Bool → JsVal
  | jnum : Int → JsVal
  | jstr : String → JsVal
  | jarr : List JsVal → JsVal
  | jobj : List (String × JsVal) → JsVal

/-- JavaScript truthiness: `undefined`, `null`, `false`, `0` and the empty
string are falsy; arrays and objects are always truthy. -/
def truthy : JsVal → Bool
  | .jundefined => false
  | .jnull => false
  | .jbool b => b
  | .jnum n => !(n == 0)
  | .jstr s => !(s == "")
  | .jarr _ => true
  | .jobj _ => true

/-- The faults Deluge.ts can raise: a `TypeError` from a property access or
method call on `undefined`/`null`, or the `CrossSeedError` thrown explicitly
by `authenticate` when the daemon is unreachable. -/
inductive Fault : Type where
  | typeError : Fault
  | crossSeedError : String → Fault

/-- JavaScript property access `v[k]`: throws `TypeError` on `undefined` and
`null` bases, yields the field (or `undefined`) on objects, and `undefined`
on other values. -/
def JsVal.get : JsVal → String → Except Fault JsVal
  | .jundefined, _ => .error .typeError
  | .jnull, _ => .error .typeError
  | .jobj fields, k => .ok ((fields.lookup k).getD .jundefined)
  | _, _ => .ok .jundefined

/-- Whether the first character list occurs at the head of the second. -/
def leadsWith : List Char → List Char → Bool
  | [], _ => true
  | _ :: _, [] => false
  | a :: as, b :: bs => a == b && leadsWith as bs

/-- Whether the first character list occurs anywhere inside the second. -/
def occursIn : List Char → List Char → Bool
  | needle, [] => leadsWith needle []
  | needle, c :: t => leadsWith needle (c :: t) || occursIn needle t

/-- JavaScript `t.includes(s)` on strings: substring containment. -/
def strIncludes (t s : String) : Bool := occursIn s.data t.data

/-- JavaScript `v.includes(s)`: array membership for arrays, substring test
for strings, and a `TypeError` on values with no `includes` method. -/
def jsIncludes : JsVal → String → Except Fault Bool
  | .jarr xs, s => .ok (xs.any (fun v => match v with | .jstr t => t == s | _ => false))
  | .jstr t, s => .ok (strIncludes t s)
  | _, _ => .error .typeError

/-- JavaScript loose comparison of a value against a string literal, as in
`state == "Seeding"`; for the values that reach this comparison only a
string can compare equal. -/
def jsEqStr : JsVal → String → Bool
  | .jstr t, s => t == s
  | _, _ => false

/-- The slice of an axios response Deluge.ts reads: the JSON `data` body and
the `set-cookie` response header (`none` when the header is absent). -/
structure AxiosResponse : Type where
  data : JsVal
  setCookie : Option (List String)

/-- The runtime configuration fields the Deluge adapter reads:
`dataCategory` (the label), `skipRecheck`, and the password embedded in
`delugeWebUrl`. -/
structure Config : Type where
  delugeLabel : String
  skipRecheck : Bool
  delugePassword : String

/-- The mutable state of a `Deluge` adapter instance, plus the environment:
`script` is the sequence of HTTP replies the web UI will give (`none` for a
network failure, resolved to `null` by `call`), and `trace` records every
JSON-RPC `(method, params)` put on the wire. `enLabeled` models the
`Promise<boolean>` field: `none` while unassigned (`undefined`), `some b`
once assigned with resolved value `b`. -/
structure St : Type where
  msgId : Nat
  loggedIn : Bool
  delugeCookie : String
  enLabeled : Option Bool
  script : List (Option AxiosResponse)
  trace : List (String × List JsVal)

/-- Embedding of `Deluge.call`: assigns the next wrapped message id, posts
the body, and resolves with the reply or with `null` on any transport
error (the catch resolves instead of rejecting). -/
def call (method : String) (params : List JsVal) (st : St) :
    Option AxiosResponse × St :=
  let newId := if st.msgId + 1 > 1024 then 0 else st.msgId + 1
  match st.script with
  | [] => (none, { st with msgId := newId, trace := st.trace ++ [(method, params)] })
  | r :: rest =>
      (r, { st with msgId := newId, script := rest,
                    trace := st.trace ++ [(method, params)] })

/-- The cookie extraction `response.headers["set-cookie"][0].split(";")[0]`:
the characters of the first header entry before the first semicolon. -/
def cookieOf (s : String) : String :=
  String.mk (s.data.takeWhile (fun c => !(c == ';')))

/-- Embedding of `Deluge.authenticate`: when not logged in, posts
`auth.login` (throwing `CrossSeedError` when the daemon is unreachable) and
captures the session cookie on a truthy `result` with a `set-cookie` header;
when already logged in, posts an `auth.check_session` probe and sets
`loggedIn` to whether any reply at all arrived. -/
def authenticate (cfg : Config) (st : St) : Except Fault Bool × St :=
  if st.loggedIn then
    let (response, st1) := call "auth.check_session" [.jstr st.delugeCookie] st
    let st2 := { st1 with loggedIn := response.isSome }
    (.ok st2.loggedIn, st2)
  else
    let (response, st1) := call "auth.login" [.jstr cfg.delugePassword] st
    match response with
    | none => (.error (.crossSeedError "Could not reach deluge"), st1)
    | some r =>
      match r.data.get "result" with
      | .error f => (.error f, st1)
      | .ok dres =>
        match r.setCookie with
        | some (c :: _) =>
            if truthy dres then
              (.ok true, { st1 with delugeCookie := cookieOf c, loggedIn := true })
            else (.ok st1.loggedIn, st1)
        | some [] =>
            if truthy dres then (.error .typeError, st1)
            else (.ok st1.loggedIn, st1)
        | none => (.ok st1.loggedIn, st1)

/-- The result expression of `Deluge.sendCall`:
`response && response.data && response.data.error === null ? response.data
: response.data.error`.  A `null` response makes the else branch dereference
`null` and throw a `TypeError`. -/
def sendCallReturn (response : Option AxiosResponse) : Except Fault JsVal :=
  match response with
  | none => .error .typeError
  | some r =>
      if truthy r.data then
        match r.data.get "error" with
        | .error f => .error f
        | .ok e => match e with
          | .jnull => .ok r.data
          | _ => .ok e
      else r.data.get "error"

/-- Embedding of `Deluge.sendCall`: when not logged in, authenticates first
(its boolean result is discarded) and then posts the call; when logged in,
posts the call directly with no session probe. -/
def sendCall (cfg : Config) (method : String) (params : List JsVal) (st : St) :
    Except Fault JsVal × St :=
  if st.loggedIn then
    let (response, st1) := call method params st
    (sendCallReturn response, st1)
  else
    match authenticate cfg st with
    | (.error f, st1) => (.error f, st1)
    | (.ok _, st1) =>
      let (response, st2) := call method params st1
      (sendCallReturn response, st2)

/-- Embedding of `Deluge.labelEnabled`: asks for the enabled plugins and
tests whether the reply's `result` includes `"Label"`. -/
def labelEnabled (cfg : Config) (st : St) : Except Fault Bool × St :=
  match sendCall cfg "core.get_enabled_plugins" [] st with
  | (.error f, st1) => (.error f, st1)
  | (.ok labels, st1) =>
    match labels.get "result" with
    | .error f => (.error f, st1)
    | .ok r =>
      match jsIncludes r "Label" with
      | .error f => (.error f, st1)
      | .ok b => (.ok b, st1)

/-- Embedding of `Deluge.setLabel`.  The guard `if (this.enLabeled)` tests
the `Promise<boolean>` object itself, which is truthy whenever it has been
assigned, regardless of the boolean it resolved to; this is modelled by
`st.enLabeled.isSome`.  When the first `label.set_torrent` reply carries a
message containing "Unknown Label", one `label.add` and one retried
`label.set_torrent` follow, with no inspection of the retry's reply. -/
def setLabel (cfg : Config) (torrenthash : String) (st : St) :
    Except Fault Bool × St :=
  if st.enLabeled.isSome then
    match sendCall cfg "label.set_torrent"
        [.jstr torrenthash, .jstr cfg.delugeLabel] st with
    | (.error f, st1) => (.error f, st1)
    | (.ok setResult, st1) =>
      match setResult.get "message" with
      | .error f => (.error f, st1)
      | .ok msg =>
        if truthy msg then
          match jsIncludes msg "Unknown Label" with
          | .error f => (.error f, st1)
          | .ok inc =>
            if inc then
              match sendCall cfg "label.add" [.jstr cfg.delugeLabel] st1 with
              | (.error f, st2) => (.error f, st2)
              | (.ok _, st2) =>
                match sendCall cfg "label.set_torrent"
                    [.jstr torrenthash, .jstr cfg.delugeLabel] st2 with
                | (.error f, st3) => (.error f, st3)
                | (.ok _, st3) => (.ok true, st3)
            else (.ok true, st1)
        else (.ok true, st1)
  else (.ok false, st)

/-- The `web.update_ui` request parameters of `Deluge.checkCompleted`. -/
def updateUiParams : List JsVal :=
  [JsVal.jarr [.jstr "name", .jstr "state", .jstr "save_path"], JsVal.jarr []]

/-- The property-access chain
`response["result"]["torrents"][infohash]["state"]` inside the `try` of
`Deluge.checkCompleted`; any step on `undefined` or `null` throws. -/
def stateLookup (response : JsVal) (infohash : String) : Except Fault JsVal :=
  match response.get "result" with
  | .error f => .error f
  | .ok r =>
    match r.get "torrents" with
    | .error f => .error f
    | .ok torrents =>
      match torrents.get infohash with
      | .error f => .error f
      | .ok entry => entry.get "state"

/-- Embedding of `Deluge.checkCompleted`.  On the happy path it returns
`true` when the torrent's state reads `"Seeding"`, and falls off the end of
the function (returning `undefined`) otherwise.  Any exception inside the
`try` lands in a `catch` block whose log line dereferences the outer,
shadowed `response` variable — which is still `undefined` — so the catch
itself throws a `TypeError` before its `return false` can run. -/
def checkCompleted (cfg : Config) (infohash : String) (st : St) :
    Except Fault JsVal × St :=
  match sendCall cfg "web.update_ui" updateUiParams st with
  | (.error _, st1) => (.error .typeError, st1)
  | (.ok response, st1) =>
    match stateLookup response infohash with
    | .error _ => (.error .typeError, st1)
    | .ok stateV =>
      if jsEqStr stateV "Seeding" then (.ok (.jbool true), st1)
      else (.ok .jundefined, st1)

/-- Embedding of `Deluge.formatData`: the positional parameter list of a
`core.add_torrent_file` request. -/
def formatData (cfg : Config) (filename : String) (filedump : String)
    (path : Option String) : List JsVal :=
  [.jstr filename, .jstr filedump,
   .jobj [("file_priorities", .jarr []),
          ("add_paused", .jbool false),
          ("seed_mode", .jbool cfg.skipRecheck),
          ("compact_allocation", .jbool true),
          ("download_location",
            match path with | some p => .jstr p | none => .jundefined),
          ("max_connections", .jnum (-1)),
          ("max_download_speed", .jnum (-1)),
          ("max_upload_slots", .jnum (-1)),
          ("max_upload_speed", .jnum (-1)),
          ("prioritize_first_last_pieces", .jbool false)]]

/-- The outcome enum of the injector; the four values of
`InjectionResult` in `constants.ts`. -/
inductive InjectionResult : Type where
  | SUCCESS : InjectionResult
  | ALREADY_EXISTS : InjectionResult
  | TORRENT_NOT_COMPLETE : InjectionResult
  | FAILURE : InjectionResult

/-- The slice of a parsed metafile the injector reads: its name, info hash
and the base64 encoding of its bencoded bytes (`encode().toString("base64")`,
kept opaque). -/
structure Metafile : Type where
  name : String
  infoHash : String
  encoded : String

/-- A file entry of a searchee. -/
structure SFile : Type where
  name : String
  length : Int

/-- A locally-known torrent considered for cross-seeding. -/
structure Searchee : Type where
  name : String
  infoHash : Option String
  files : List SFile
  path : Option String

/-- JavaScript truthiness of an optional string field such as
`searchee.infoHash`: absent (`undefined`) and the empty string are falsy. -/
def optTruthy : Option String → Bool
  | none => false
  | some s => !(s == "")

/-- Embedding of `Deluge.inject`.  When the searchee carries a truthy
`infoHash`, `checkCompleted` runs first and a falsy answer short-circuits to
`TORRENT_NOT_COMPLETE`.  Otherwise the torrent is submitted with
`core.add_torrent_file`; a truthy `result` fires `setLabel` without awaiting
it (its outcome and any rejection are dropped, but its wire calls happen)
and yields `SUCCESS`; a message containing "already" yields
`ALREADY_EXISTS`; anything else yields `FAILURE`. -/
def inject (cfg : Config) (newTorrent : Metafile) (searchee : Searchee)
    (path : Option String) (st : St) : Except Fault InjectionResult × St :=
  let step1 : Except Fault Bool × St :=
    if optTruthy searchee.infoHash then
      match checkCompleted cfg (searchee.infoHash.getD "") st with
      | (.error f, st1) => (.error f, st1)
      | (.ok v, st1) => (.ok (!truthy v), st1)
    else (.ok false, st)
  match step1 with
  | (.error f, st1) => (.error f, st1)
  | (.ok true, st1) => (.ok .TORRENT_NOT_COMPLETE, st1)
  | (.ok false, st1) =>
    let params := formatData cfg (newTorrent.name ++ ".cross-seed.torrent")
        newTorrent.encoded path
    match sendCall cfg "core.add_torrent_file" params st1 with
    | (.error f, st2) => (.error f, st2)
    | (.ok addResult, st2) =>
      match addResult.get "result" with
      | .error f => (.error f, st2)
      | .ok r =>
        if truthy r then
          let st3 := (setLabel cfg newTorrent.infoHash st2).2
          (.ok .SUCCESS, st3)
        else
          match addResult.get "message" with
          | .error f => (.error f, st2)
          | .ok msg =>
            if truthy msg then
              match jsIncludes msg "already" with
              | .error f => (.error f, st2)
              | .ok inc =>
                if inc then (.ok .ALREADY_EXISTS, st2)
                else (.ok .FAILURE, st2)
            else (.ok .FAILURE, st2)

/-- One step of the `filterDupes` reducer: a new name is appended to the
map; an existing entry is replaced exactly when the newcomer carries a
truthy `infoHash` and the incumbent does not (a JavaScript `Map.set` on an
existing key keeps the key's insertion position). -/
def dupeStep (acc : List Searchee) (cur : Searchee) : List Searchee :=
  match acc.find? (fun s => s.name == cur.name) with
  | none => acc ++ [cur]
  | some entry =>
    if optTruthy cur.infoHash && !optTruthy entry.infoHash then
      acc.map (fun s => if s.name == cur.name then cur else s)
    else acc

/-- Embedding of `filterDupes` from `preFilter.ts`: the insertion-ordered
values of the name-keyed duplicate map. -/
def filterDupes (searchees : List Searchee) : List Searchee :=
  searchees.foldl dupeStep []

/-- One row of the `searchee` x `indexer` cross join used by
`filterTimestamps`: each currently enabled indexer contributes one row,
whose left-outer-joined timestamp columns are `NULL` (`none`) when that
indexer never searched the searchee. -/
structure TimestampRow : Type where
  first_searched : Option Int
  last_searched : Option Int

/-- The literal `9223372036854775807` used as the never-searched sentinel in
the `coalesce` of `first_searched`. -/
def I64MAX : Int := 9223372036854775807

/-- One row of the SQL aggregate scan of `filterTimestamps`:
`min(coalesce(first_searched, 9223372036854775807))` and
`min(coalesce(last_searched, 0))`.  Both aggregates are MIN. -/
def aggStep (acc : Option Int × Option Int) (r : TimestampRow) :
    Option Int × Option Int :=
  (match acc.1 with
   | none => some (r.first_searched.getD I64MAX)
   | some m => some (min m (r.first_searched.getD I64MAX)),
   match acc.2 with
   | none => some (r.last_searched.getD 0)
   | some m => some (min m (r.last_searched.getD 0)))

/-- The pair `(first_searched_any, last_searched_all)` the SQL query of
`filterTimestamps` returns; `none` components when there are no rows (no
enabled indexer). -/
def timestampAggregates (rows : List TimestampRow) : Option Int × Option Int :=
  rows.foldl aggStep (none, none)

/-- JavaScript truthiness of a SQL aggregate value: `null` and `0` are
falsy. -/
def intTruthy : Option Int → Bool
  | none => false
  | some n => !(n == 0)

/-- Embedding of `nMsAgo` from `utils.ts`: the clock value `n` milliseconds
before `now`. -/
def nMsAgo (now n : Int) : Int := now - n

/-- The first exclusion test of `filterTimestamps`: an `excludeOlder`
duration is configured, `first_searched_any` is truthy, and it is older
than `nMsAgo(excludeOlder)`. -/
def olderRuleExcludes (excludeOlder : Option Int) (now : Int)
    (fsa : Option Int) : Bool :=
  match excludeOlder, fsa with
  | some d, some t => !(t == 0) && decide (t < nMsAgo now d)
  | _, _ => false

/-- The second exclusion test of `filterTimestamps`: an
`excludeRecentSearch` duration is configured, `last_searched_all` is truthy,
and it is newer than `nMsAgo(excludeRecentSearch)`. -/
def recentRuleExcludes (excludeRecentSearch : Option Int) (now : Int)
    (lsa : Option Int) : Bool :=
  match excludeRecentSearch, lsa with
  | some d, some t => !(t == 0) && decide (t > nMsAgo now d)
  | _, _ => false

/-- Embedding of `filterTimestamps` from `preFilter.ts`, as a pure function
of the configured windows, the current clock, and the joined timestamp rows
of the enabled indexers: eligible unless one of the two exclusion rules
fires against the SQL aggregates. -/
def filterTimestamps (excludeOlder excludeRecentSearch : Option Int)
    (now : Int) (rows : List TimestampRow) : Bool :=
  let agg := timestampAggregates rows
  if olderRuleExcludes excludeOlder now agg.1 then false
  else if recentRuleExcludes excludeRecentSearch now agg.2 then false
  else true

/-- The spec's reading of the `last_searched_all` aggregate, for comparison
with the code: the latest (maximum) last-search timestamp among enabled
indexers, with the zero/epoch sentinel for indexers never searched. -/
def lastSearchedAllSpecMax (rows : List TimestampRow) : Option Int :=
  match rows.map (fun r => r.last_searched.getD 0) with
  | [] => none
  | x :: xs => some (xs.foldl max x)

/-- The timestamp gate as the spec describes it, for comparison with the
code: identical to `filterTimestamps` except that the "exclude recent" rule
compares against the maximum-based `lastSearchedAllSpecMax`. -/
def filterTimestampsSpecMax (excludeOlder excludeRecentSearch : Option Int)
    (now : Int) (rows : List TimestampRow) : Bool :=
  if olderRuleExcludes excludeOlder now (timestampAggregates rows).1 then false
  else if recentRuleExcludes excludeRecentSearch now
      (lastSearchedAllSpecMax rows) then false
  else true

/-- The minimum of a list of integers, `none` on the empty list; the value
of the SQL `MIN` aggregate. -/
def listMin : List Int → Option Int
  | [] => none
  | x :: xs => some (xs.foldl min x)

/-- A well-formed deluge success body: `result` as given, `error: null`. -/
def okData (result : JsVal) : JsVal :=
  .jobj [("result", result), ("error", .jnull), ("id", .jnum 1)]

/-- A reply carrying a success body and no `set-cookie` header. -/
def okReply (result : JsVal) : AxiosResponse := ⟨okData result, none⟩

/-- A reply carrying a deluge error body whose message is `msg`. -/
def errReply (msg : String) : AxiosResponse :=
  ⟨.jobj [("result", .jnull),
          ("error", .jobj [("message", .jstr msg), ("code", .jnum 1)]),
          ("id", .jnum 2)], none⟩

/-- A `web.update_ui` reply reporting exactly one torrent `h` whose state
column reads `s`. -/
def stateReply (h s : String) : AxiosResponse :=
  okReply (.jobj [("torrents", .jobj [(h, .jobj [("state", .jstr s)])])])

/-- An adapter state holding an authenticated session, an unassigned
`enLabeled`, an empty trace, and the given reply script. -/
def mkSt (script : List (Option AxiosResponse)) : St :=
  { msgId := 0, loggedIn := true, delugeCookie := "", enLabeled := none,
    script := script, trace := [] }

/-- The completion-check replies a script must lead with for a given
searchee: one seeding report keyed by its info hash when the searchee
carries a truthy one, nothing otherwise. -/
def checkScript (s : Searchee) : List (Option AxiosResponse) :=
  if optTruthy s.infoHash then
    [some (stateReply (s.infoHash.getD "") "Seeding")]
  else []

/-- A concrete configuration for witnesses and counterexamples. -/
def cfg0 : Config := ⟨"cross-seed", false, "pw"⟩

/-- A concrete metafile for witnesses and counterexamples. -/
def t0 : Metafile := ⟨"Rel", "abc123", "b64"⟩

/-- A concrete searchee without an info hash. -/
def s0 : Searchee := ⟨"Rel", none, [⟨"Rel.mkv", 1⟩], none⟩

/-- A concrete searchee carrying an info hash. -/
def s1 : Searchee := ⟨"Rel", some "abc123", [⟨"Rel.mkv", 1⟩], none⟩

/-- Whether a computation ended in an ordinary `InjectionResult` value
rather than a raised fault. -/
def isOkResult : Except Fault InjectionResult → Bool
  | .ok _ => true
  | .error _ => false

/-! Helper lemmas about the SQL MIN aggregates. -/

theorem foldl_aggStep_snd (rows : List TimestampRow) :
    ∀ acc : Option Int × Option Int,
      (rows.foldl aggStep acc).2 =
        (match acc.2 with
         | none => listMin (rows.map (fun r => r.last_searched.getD 0))
         | some m =>
             some ((rows.map (fun r => r.last_searched.getD 0)).foldl min m)) := by
  induction rows with
  | nil => intro acc; cases h : acc.2 <;> simp [listMin, h]
  | cons r rs ih =>
    intro acc
    rcases acc with ⟨a1, a2⟩
    cases a2 with
    | none => simpa [aggStep, listMin] using ih (aggStep (a1, none) r)
    | some m => simpa [aggStep, listMin] using ih (aggStep (a1, some m) r)

theorem timestampAggregates_snd (rows : List TimestampRow) :
    (timestampAggregates rows).2 =
      listMin (rows.map (fun r => r.last_searched.getD 0)) := by
  simpa using foldl_aggStep_snd rows (none, none)

theorem foldl_aggStep_fst (rows : List TimestampRow) :
    ∀ acc : Option Int × Option Int,
      (rows.foldl aggStep acc).1 =
        (match acc.1 with
         | none => listMin (rows.map (fun r => r.first_searched.getD I64MAX))
         | some m =>
             some ((rows.map (fun r => r.first_searched.getD I64MAX)).foldl min m)) := by
  induction rows with
  | nil => intro acc; cases h : acc.1 <;> simp [listMin, h]
  | cons r rs ih =>
    intro acc
    rcases acc with ⟨a1, a2⟩
    cases a1 with
    | none => simpa [aggStep, listMin] using ih (aggStep (none, a2) r)
    | some m => simpa [aggStep, listMin] using ih (aggStep (some m, a2) r)

theorem timestampAggregates_fst (rows : List TimestampRow) :
    (timestampAggregates rows).1 =
      listMin (rows.map (fun r => r.first_searched.getD I64MAX)) := by
  simpa using foldl_aggStep_fst rows (none, none)

theorem foldl_min_zero (xs : List Int) :
    ∀ a : Int, 0 ≤ a → (∀ x ∈ xs, 0 ≤ x) → (a = 0 ∨ 0 ∈ xs) →
      xs.foldl min a = 0 := by
  induction xs with
  | nil =>
    intro a _ _ h0
    rcases h0 with h | h
    · simpa using h
    · simp at h
  | cons x xs ih =>
    intro a ha hx h0
    have hx0 : 0 ≤ x := hx x (by simp)
    have hxs : ∀ y ∈ xs, 0 ≤ y := fun y hy => hx y (by simp [hy])
    have : min a x = 0 ∨ 0 ∈ xs := by
      rcases h0 with h | h
      · left; omega
      · simp at h
        rcases h with h | h
        · left; omega
        · right; exact h
    exact ih (min a x) (by omega) hxs this

theorem foldl_min_const (xs : List Int) :
    ∀ c : Int, (∀ x ∈ xs, x = c) → xs.foldl min c = c := by
  induction xs with
  | nil => intro c _; rfl
  | cons x xs ih =>
    intro c h
    have hx : x = c := h x (by simp)
    have : ∀ y ∈ xs, y = c := fun y hy => h y (by simp [hy])
    simpa [hx] using ih c this

theorem truthy_jobj (fields : List (String × JsVal)) :
    truthy (.jobj fields) = true := rfl

theorem truthy_jstr (s : String) : truthy (.jstr s) = !(s == "") := rfl

theorem truthy_jundefined : truthy .jundefined = false := rfl

theorem truthy_jnull : truthy .jnull = false := rfl

theorem olderRule_none (e : Option Int) (now : Int) :
    olderRuleExcludes e now none = false := by
  cases e <;> rfl

theorem olderRule_noWindow (now : Int) (fsa : Option Int) :
    olderRuleExcludes none now fsa = false := by
  cases fsa <;> rfl

theorem recentRule_none (e : Option Int) (now : Int) :
    recentRuleExcludes e now none = false := by
  cases e <;> rfl

theorem recentRule_zero (e : Option Int) (now : Int) :
    recentRuleExcludes e now (some 0) = false := by
  cases e <;> simp [recentRuleExcludes]

/-- C4 counterexample: with two enabled indexers last searched at times 10
and 20, the code's `last_searched_all` aggregate is the minimum 10, not the
claimed maximum 20, and at clock 100 with an exclude-recent window reaching
back to 15 the code keeps the searchee eligible while the claimed
maximum-based gate would exclude it. -/
theorem lastSearchedAll_min_not_max_cex :
    (timestampAggregates [⟨some 50, some 10⟩, ⟨some 60, some 20⟩]).2 = some 10 ∧
    lastSearchedAllSpecMax [⟨some 50, some 10⟩, ⟨some 60, some 20⟩] = some 20 ∧
    filterTimestamps none (some 85) 100
      [⟨some 50, some 10⟩, ⟨some 60, some 20⟩] = true ∧
    filterTimestampsSpecMax none (some 85) 100
      [⟨some 50, some 10⟩, ⟨some 60, some 20⟩] = false := by
  decide

/-- C4 (amended): the `last_searched_all` aggregate equals the minimum over
the enabled indexers of the coalesced last-search timestamps (with the
zero/epoch sentinel for a never-searched indexer), and the exclude-recent
rule compares against that minimum — so whenever some enabled indexer has
never been searched (and timestamps are non-negative) the recent rule can
never exclude the searchee. -/
theorem filterTimestamps_min_aggregate
    (excl : Option Int) (now : Int) (rows : List TimestampRow) :
    (timestampAggregates rows).2 =
      listMin (rows.map (fun r => r.last_searched.getD 0)) ∧
    ((∃ r ∈ rows, r.last_searched = none) →
     (∀ r ∈ rows, 0 ≤ r.last_searched.getD 0) →
     filterTimestamps none excl now rows = true) := by
  refine ⟨timestampAggregates_snd rows, ?_⟩
  rintro ⟨r, hr, hnone⟩ hall
  have h0 : (0 : Int) ∈ rows.map (fun r => r.last_searched.getD 0) :=
    List.mem_map.2 ⟨r, hr, by simp [hnone]⟩
  have hx : ∀ x ∈ rows.map (fun r => r.last_searched.getD 0), 0 ≤ x := by
    intro x hxm
    rcases List.mem_map.1 hxm with ⟨r', hr', h⟩
    exact h ▸ hall r' hr'
  have hmin : listMin (rows.map (fun r => r.last_searched.getD 0)) = some 0 := by
    rcases hxs : rows.map (fun r => r.last_searched.getD 0) with _ | ⟨x, t⟩
    · rw [hxs] at h0; simp at h0
    · rw [hxs] at h0 hx
      have hx0 : 0 ≤ x := hx x (by simp)
      have hxt : ∀ y ∈ t, 0 ≤ y := fun y hy => hx y (by simp [hy])
      have hor : x = 0 ∨ 0 ∈ t := by
        rcases List.mem_cons.1 h0 with h | h
        · left; omega
        · right; exact h
      simp [hxs, listMin, foldl_min_zero t x hx0 hxt hor]
  have hsnd : (timestampAggregates rows).2 = some 0 :=
    (timestampAggregates_snd rows).trans hmin
  simp [filterTimestamps, hsnd, olderRule_noWindow, recentRule_zero]

/-- C4 amended-claim witness at a concrete input: one searched and coalesced
row with no last search keeps the searchee eligible. -/
theorem filterTimestamps_min_aggregate_witness :
    filterTimestamps none (some 10) 100 [⟨some 5, none⟩] = true :=
  (filterTimestamps_min_aggregate (some 10) 100 [⟨some 5, none⟩]).2
    ⟨⟨some 5, none⟩, by simp, rfl⟩ (by decide)

/-- C8: a searchee never searched on any currently enabled indexer (all its
joined timestamp rows are NULL, or there are no enabled indexers) is
eligible whatever `excludeOlder` and `excludeRecentSearch` are configured
to, for any clock not beyond the int64 sentinel. -/
theorem filterTimestamps_unsearched_eligible
    (excludeOlder excludeRecentSearch : Option Int) (now : Int)
    (rows : List TimestampRow)
    (hrows : ∀ r ∈ rows, r.first_searched = none ∧ r.last_searched = none)
    (hnow : ∀ d, excludeOlder = some d → now - d ≤ I64MAX) :
    filterTimestamps excludeOlder excludeRecentSearch now rows = true := by
  cases rows with
  | nil =>
    simp [filterTimestamps, timestampAggregates, olderRule_none, recentRule_none]
  | cons r rs =>
    have hfstv : (timestampAggregates (r :: rs)).1 = some I64MAX := by
      rw [timestampAggregates_fst]
      have h1 : r.first_searched.getD I64MAX = I64MAX := by
        simp [(hrows r (by simp)).1]
      have h2 : ∀ x ∈ rs.map (fun r => r.first_searched.getD I64MAX),
          x = I64MAX := by
        intro x hxm
        rcases List.mem_map.1 hxm with ⟨r', hr', h⟩
        rw [← h]
        simp [(hrows r' (by simp [hr'])).1]
      simp [listMin, h1, foldl_min_const _ _ h2]
    have hsndv : (timestampAggregates (r :: rs)).2 = some 0 := by
      rw [timestampAggregates_snd]
      have h1 : r.last_searched.getD 0 = 0 := by
        simp [(hrows r (by simp)).2]
      have h2 : ∀ x ∈ rs.map (fun r => r.last_searched.getD 0), x = 0 := by
        intro x hxm
        rcases List.mem_map.1 hxm with ⟨r', hr', h⟩
        rw [← h]
        simp [(hrows r' (by simp [hr'])).2]
      simp [listMin, h1, foldl_min_const _ _ h2]
    have hold : olderRuleExcludes excludeOlder now (some I64MAX) = false := by
      cases hEx : excludeOlder with
      | none => rfl
      | some d =>
        have hle := hnow d hEx
        have hdec : decide (I64MAX < nMsAgo now d) = false :=
          decide_eq_false (not_lt.2 (by simpa [nMsAgo] using hle))
        simp [olderRuleExcludes, hdec]
    simp [filterTimestamps, hfstv, hsndv, hold, recentRule_zero]

/-- C8 witness: two never-searched enabled indexers, both windows
configured, a realistic clock. -/
theorem filterTimestamps_unsearched_eligible_witness :
    filterTimestamps (some 86400000) (some 3600000) 1700000000000
      [⟨none, none⟩, ⟨none, none⟩] = true :=
  filterTimestamps_unsearched_eligible _ _ _ _
    (by decide) (by intro d hd; cases hd; decide)

/-- C9: among two same-named searchees of which exactly one carries a
truthy info hash, `filterDupes` keeps exactly that one, whichever order the
two arrive in. -/
theorem filterDupes_keeps_infohash (a b : Searchee)
    (hn : a.name = b.name) (ha : optTruthy a.infoHash = true)
    (hb : optTruthy b.infoHash = false) :
    filterDupes [a, b] = [a] ∧ filterDupes [b, a] = [a] := by
  constructor
  · simp [filterDupes, dupeStep, hn, ha, hb]
  · simp [filterDupes, dupeStep, hn, ha, hb]

/-- C9 witness at concrete searchees sharing the name Rel. -/
theorem filterDupes_keeps_infohash_witness :
    filterDupes [s1, s0] = [s1] ∧ filterDupes [s0, s1] = [s1] :=
  filterDupes_keeps_infohash s1 s0 rfl (by decide) (by decide)

/-- C5 evaluated at the failing input: with the label plugin reported
disabled (the `enLabeled` promise resolved to `false`), `setLabel` still
returns `true` and still puts a `label.set_torrent` call on the wire,
because the source tests the promise object — truthy once assigned —
instead of the boolean it resolved to.  The claimed no-op behaviour does
not hold on the code. -/
theorem setLabel_disabled_still_sets :
    (setLabel cfg0 "deadbeef"
      { mkSt [some (okReply (.jbool true))] with enLabeled := some false }).1 =
      .ok true ∧
    (setLabel cfg0 "deadbeef"
      { mkSt [some (okReply (.jbool true))] with enLabeled := some false }).2.trace =
      [("label.set_torrent", [.jstr "deadbeef", .jstr "cross-seed"])] :=
  ⟨rfl, rfl⟩

/-- C10 evaluated at the failing input: when the `web.update_ui` reply does
not contain the requested hash, `checkCompleted` raises a `TypeError`
instead of returning `false` — the catch block's log line dereferences the
outer, shadowed `response`, which is still `undefined`, before the
`return false` can run.  The second conjunct shows the found-but-not-yet-
seeding case does not return `false` either: the function falls off the
end of the `try` and yields `undefined`. -/
theorem checkCompleted_lookup_failure_raises :
    (checkCompleted cfg0 "abc123"
      (mkSt [some (okReply (.jobj [("torrents", .jobj [])]))])).1 =
      .error .typeError ∧
    (checkCompleted cfg0 "abc123"
      (mkSt [some (stateReply "abc123" "Downloading")])).1 = .ok .jundefined :=
  ⟨rfl, rfl⟩

/-- C6: with labelling supported and a client that answers the first
label-set with "Unknown Label" and the retried label-set with
"Unknown Label" again, `setLabel` puts exactly one `label.add` between
exactly two `label.set_torrent` calls on the wire and stops — the second
unknown-label failure triggers no further create or set attempt. -/
theorem setLabel_unknown_label_single_retry (cfg : Config) (hash : String) :
    ∃ st',
      setLabel cfg hash
        { mkSt [some (errReply "Unknown Label"), some (okReply (.jbool true)),
                some (errReply "Unknown Label")] with enLabeled := some true } =
        (.ok true, st') ∧
      st'.trace =
        [("label.set_torrent", [.jstr hash, .jstr cfg.delugeLabel]),
         ("label.add", [.jstr cfg.delugeLabel]),
         ("label.set_torrent", [.jstr hash, .jstr cfg.delugeLabel])] :=
  ⟨_, rfl, rfl⟩

/-- C1: for every metafile and searchee, against a client that reports the
source torrent seeding (when one is to be checked), accepts the first
submission, and answers the second submission with an "already exists"
error, injecting twice yields `SUCCESS` then `ALREADY_EXISTS` — two
ordinary values, no two successes and no fault. -/
theorem inject_idempotent (cfg : Config) (t : Metafile) (s : Searchee)
    (path : Option String) :
    (inject cfg t s path
      (mkSt (checkScript s ++ [some (okReply (.jbool true))] ++
             checkScript s ++ [some (errReply "already exists")]))).1 =
      .ok .SUCCESS ∧
    (inject cfg t s path
      ((inject cfg t s path
        (mkSt (checkScript s ++ [some (okReply (.jbool true))] ++
               checkScript s ++ [some (errReply "already exists")]))).2)).1 =
      .ok .ALREADY_EXISTS := by
  cases hOpt : optTruthy s.infoHash with
  | false =>
    have hcs : checkScript s = [] := by simp [checkScript, hOpt]
    constructor
    · simp [inject, hOpt, hcs, checkCompleted, sendCall, call, mkSt,
            sendCallReturn, okReply, okData, errReply, stateReply, JsVal.get,
            setLabel, formatData, jsEqStr, truthy, List.lookup, jsIncludes,
            strIncludes, occursIn, leadsWith]
    · simp [inject, hOpt, hcs, checkCompleted, sendCall, call, mkSt,
            sendCallReturn, okReply, okData, errReply, stateReply, JsVal.get,
            setLabel, formatData, jsEqStr, truthy, List.lookup, jsIncludes,
            strIncludes, occursIn, leadsWith]
  | true =>
    have hcs : checkScript s =
        [some (stateReply (s.infoHash.getD "") "Seeding")] := by
      simp [checkScript, hOpt]
    constructor
    · simp [inject, hOpt, hcs, checkCompleted, sendCall, call, mkSt,
            sendCallReturn, okReply, okData, errReply, stateReply, JsVal.get,
            setLabel, formatData, jsEqStr, truthy, List.lookup, jsIncludes,
            strIncludes, occursIn, leadsWith, updateUiParams, stateLookup]
    · simp [inject, hOpt, hcs, checkCompleted, sendCall, call, mkSt,
            sendCallReturn, okReply, okData, errReply, stateReply, JsVal.get,
            setLabel, formatData, jsEqStr, truthy, List.lookup, jsIncludes,
            strIncludes, occursIn, leadsWith, updateUiParams, stateLookup]

/-- C3: when the searchee carries an info hash and the client reports that
hash in any state other than Seeding, `inject` returns
`TORRENT_NOT_COMPLETE` as a value and the only call put on the wire is the
`web.update_ui` state query — no `core.add_torrent_file` submission is ever
made. -/
theorem inject_not_seeding_no_submission (cfg : Config) (t : Metafile)
    (path : Option String) (s : Searchee) (h stateStr : String)
    (h1 : s.infoHash = some h) (h2 : (h == "") = false)
    (h3 : (stateStr == "Seeding") = false) :
    (inject cfg t s path (mkSt [some (stateReply h stateStr)])).1 =
      .ok .TORRENT_NOT_COMPLETE ∧
    (inject cfg t s path (mkSt [some (stateReply h stateStr)])).2.trace =
      [("web.update_ui", updateUiParams)] ∧
    ∀ c ∈ (inject cfg t s path (mkSt [some (stateReply h stateStr)])).2.trace,
      c.1 ≠ "core.add_torrent_file" := by
  refine ⟨?_, ?_, ?_⟩ <;>
    simp [inject, h1, optTruthy, h2, checkCompleted, sendCall, call, mkSt,
          sendCallReturn, stateReply, okReply, okData, JsVal.get, stateLookup,
          updateUiParams, jsEqStr, truthy, List.lookup, h3]

/-- C3 witness: a concrete searchee reported Downloading is short-circuited
with only the state query on the wire. -/
theorem inject_not_seeding_no_submission_witness :
    (inject cfg0 t0 s1 none
      (mkSt [some (stateReply "abc123" "Downloading")])).1 =
      .ok .TORRENT_NOT_COMPLETE ∧
    (inject cfg0 t0 s1 none
      (mkSt [some (stateReply "abc123" "Downloading")])).2.trace =
      [("web.update_ui", updateUiParams)] :=
  ⟨(inject_not_seeding_no_submission cfg0 t0 none s1 "abc123" "Downloading"
      rfl (by decide) (by decide)).1,
   (inject_not_seeding_no_submission cfg0 t0 none s1 "abc123" "Downloading"
      rfl (by decide) (by decide)).2.1⟩

/-- C2 counterexample: with no reply from the client at all, `inject` does
not terminate with an `InjectionResult` value — it raises a fault (inside an
authenticated session, the `sendCall` return expression dereferences the
`null` response and throws a `TypeError`). -/
theorem inject_no_reply_faults_cex :
    (inject cfg0 t0 s0 none (mkSt [none])).1 = .error .typeError := rfl

/-- C2 (amended): an `InjectionResult` is never raised as a fault — every
fault is a `TypeError` or `CrossSeedError` — and whenever the client
answers the submission with a reply of the deluge wire shape (a success
body carrying any `result` value, or an error body carrying any string
message), `inject` terminates returning one of the four enum values as an
ordinary value; only a missing or malformed reply raises a fault. -/
theorem inject_wellformed_reply_returns_value (cfg : Config) (t : Metafile)
    (s : Searchee) (path : Option String)
    (h1 : optTruthy s.infoHash = false) :
    (∀ v : JsVal,
      isOkResult (inject cfg t s path (mkSt [some (okReply v)])).1 = true) ∧
    (∀ msg : String,
      isOkResult (inject cfg t s path (mkSt [some (errReply msg)])).1 = true) := by
  constructor
  · intro v
    cases htv : truthy v <;>
      simp [inject, h1, sendCall, call, mkSt, sendCallReturn, okReply, okData,
            JsVal.get, List.lookup, setLabel, isOkResult, htv, truthy_jobj,
            truthy_jundefined, truthy_jnull]
  · intro msg
    cases hm : msg == "" with
    | true =>
      simp [inject, h1, sendCall, call, mkSt, sendCallReturn, errReply,
            JsVal.get, List.lookup, isOkResult, hm, truthy_jobj, truthy_jstr,
            truthy_jundefined, truthy_jnull]
    | false =>
      cases hinc : strIncludes msg "already" <;>
        simp [inject, h1, sendCall, call, mkSt, sendCallReturn, errReply,
              JsVal.get, List.lookup, isOkResult, jsIncludes, hm, hinc,
              truthy_jobj, truthy_jstr, truthy_jundefined, truthy_jnull]

/-- C2 amended-claim witness at concrete inputs: a success reply and an
error reply both come back as ordinary values. -/
theorem inject_wellformed_reply_returns_value_witness :
    isOkResult (inject cfg0 t0 s0 none
      (mkSt [some (okReply (.jbool true))])).1 = true ∧
    isOkResult (inject cfg0 t0 s0 none
      (mkSt [some (errReply "some failure")])).1 = true :=
  ⟨(inject_wellformed_reply_returns_value cfg0 t0 s0 none rfl).1 (.jbool true),
   (inject_wellformed_reply_returns_value cfg0 t0 s0 none rfl).2 "some failure"⟩

/-- C7 counterexample: a call issued through `sendCall` while the session is
already authenticated goes straight onto the wire — the trace holds exactly
the requested method and no `auth.check_session` probe, so no
session-validity probe is performed first. -/
theorem sendCall_authenticated_no_probe_cex :
    (sendCall cfg0 "core.get_free_space" []
      (mkSt [some (okReply (.jbool true))])).2.trace =
      [("core.get_free_space", [])] ∧
    (sendCall cfg0 "core.get_free_space" []
      (mkSt [some (okReply (.jbool true))])).1 =
      .ok (okData (.jbool true)) :=
  ⟨rfl, rfl⟩

/-- C7 (amended): while the session is already authenticated, `sendCall`
issues the requested call directly and puts exactly that one message on the
wire, with no session-validity probe; the probe lives in `authenticate`,
which `sendCall` invokes only while unauthenticated — `authenticate` invoked
while authenticated issues one `auth.check_session` probe and a probe with
no reply flips the session back to unauthenticated; and within one
`sendCall` at most one authentication attempt precedes at most one call, so
the manager never retries more than once per call. -/
theorem sendCall_direct_probe_in_authenticate :
    (∀ (cfg : Config) (m : String) (p : List JsVal) (st : St),
        st.loggedIn = true →
        (sendCall cfg m p st).2.trace = st.trace ++ [(m, p)]) ∧
    (∀ (cfg : Config) (st : St),
        st.loggedIn = true → st.script = [none] →
        (authenticate cfg st).1 = .ok false ∧
        (authenticate cfg st).2.loggedIn = false ∧
        (authenticate cfg st).2.trace =
          st.trace ++ [("auth.check_session", [.jstr st.delugeCookie])]) ∧
    (∀ (cfg : Config) (m : String) (p : List JsVal) (st : St),
        st.loggedIn = false →
        (sendCall cfg m p st).2.trace =
          (authenticate cfg st).2.trace ++
            (match (authenticate cfg st).1 with
             | .ok _ => [(m, p)]
             | .error _ => [])) := by
  refine ⟨?_, ?_, ?_⟩
  · intro cfg m p st h
    cases hs : st.script <;> simp [sendCall, h, call, hs]
  · intro cfg st h hscript
    refine ⟨?_, ?_, ?_⟩ <;> simp [authenticate, h, call, hscript]
  · intro cfg m p st h
    rcases hauth : authenticate cfg st with ⟨res, st1⟩
    cases res with
    | error f => simp [sendCall, h, hauth]
    | ok b =>
      cases hs : st1.script <;> simp [sendCall, h, hauth, call, hs]

/-- C7 amended-claim witness at concrete inputs: one direct call on the
wire while authenticated, and a no-reply probe in `authenticate` flipping
the session to unauthenticated. -/
theorem sendCall_direct_probe_in_authenticate_witness :
    (sendCall cfg0 "web.update_ui" []
      (mkSt [some (okReply (.jbool true))])).2.trace =
      [("web.update_ui", [])] ∧
    (authenticate cfg0 (mkSt [none])).1 = .ok false ∧
    (authenticate cfg0 (mkSt [none])).2.loggedIn = false := by
  refine ⟨?_, ?_, ?_⟩
  · have h := sendCall_direct_probe_in_authenticate.1 cfg0 "web.update_ui" []
      (mkSt [some (okReply (.jbool true))]) rfl
    simpa [mkSt] using h
  · exact (sendCall_direct_probe_in_authenticate.2.1 cfg0 (mkSt [none]) rfl rfl).1
  · exact (sendCall_direct_probe_in_authenticate.2.1 cfg0 (mkSt [none]) rfl rfl).2.1
